import Mathlib

set_option maxHeartbeats 1000000

/-!
Shallow embedding of the deterministic scoring engine of the
Quantum-Challenge-Santander-V2 repository (`dashboard_novo.py`, with the
duplicated `calculate_hhi` in `rag_system.py`).

Modelling conventions:
* Python floats are modelled by an arbitrary `LinearOrderedField α`
  (instantiated at `ℚ` for concrete evaluation and at `ℝ` where a square
  root is needed).
* `series.std()` (pandas, `ddof = 1`) is the square root of the rational
  `sampleVar`; since the square root leaves `ℚ`, the standard deviation
  enters every function that needs it as an explicit parameter `s`, which
  theorems constrain by `0 ≤ s` and `s ^ 2 = sampleVar series`.
* For a one-element series pandas `std()` is NaN; the coefficient of
  variation is therefore modelled as `Option α`, with `none` playing NaN.
  A float comparison against NaN is `False`, and CPython's two-argument
  `max`/`min` return the FIRST argument when the comparison with NaN is
  involved, so `min(100, max(0, 100 - nan)) = min(100, 0) = 0`.
* `float('inf')` (the runway of a company that burns no cash) is modelled
  by `none : Option α`, with the comparisons the code performs on it
  (`inf > c` is `True`, `inf < c` is `False`) given by `runwayGtB`,
  `runwayLtB`.
* A pandas filter `df[mask]` is `List.filter`, `groupby(k)[v].sum()` is
  `groupSums`, `diff().dropna()` is `listDeltas`.
-/

/-- A row of `df_infos` (`Base_Infos.csv`): one monthly record of a company.
`id` is the company identifier (`ID`), `vl_sldo` the month's balance
(`VL_SLDO`), `vl_fatu` the revenue (`VL_FATU`, constant per company). -/
structure InfoRow (α : Type) where
  id : Nat
  vl_sldo : α
  vl_fatu : α

/-- A row of `df_transacoes` (`Base_Transacoes.csv`): one transaction with
payer `id_pgto` (`ID_PGTO`), receiver `id_rcbe` (`ID_RCBE`) and amount
`vl` (`VL`). -/
structure TransRow (α : Type) where
  id_pgto : Nat
  id_rcbe : Nat
  vl : α

/-- A row of `Base_Analisada.csv` as used by the portfolio filters of
`dashboard_geral`: the precomputed per-company, per-month analysis columns.
`runway_meses` is `Option α` because that column can be NaN (`none`);
pandas comparisons with NaN are `False` and `isna()` is `Option.isNone`. -/
structure AnalisadaRow (α : Type) where
  id : Nat
  mes : Nat
  score_saude : α
  q25_health : α
  score_risco : α
  q75_risk : α
  runway_meses : Option α
  flag_stress_caixa : α
  grow_volume : α
  estado : String

variable {α : Type} [LinearOrderedField α]

/-- `df_infos[df_infos['ID'] == cnpj]` (the order of the rows is the order
in which they appear in the CSV, which is the time order consumed by every
scorer). -/
def dadosCnpj (df_infos : List (InfoRow α)) (cnpj : Nat) : List (InfoRow α) :=
  df_infos.filter (fun r => r.id == cnpj)

/-- pandas `series.mean()`. -/
def listMean (l : List α) : α := l.sum / (l.length : α)

/-- pandas `series.diff().dropna()`: the consecutive month-over-month
deltas (length `n - 1`). -/
def listDeltas : List α → List α
  | a :: b :: t => (b - a) :: listDeltas (b :: t)
  | _ => []

/-- pandas sample variance with `ddof = 1`; `series.std()` is its square
root (NaN for a one-element series, where the denominator is zero). -/
def sampleVar (l : List α) : α :=
  ((l.map (fun x => (x - listMean l) ^ 2)).sum) / ((l.length : α) - 1)

/-- `cv_saldo = series.std() / series.mean() if series.mean() != 0 else 1`.
`s` stands for `series.std()` (constrained by `0 ≤ s` and
`s ^ 2 = sampleVar` in the theorems).  For a one-element series with
nonzero mean, `std()` is NaN and so is the quotient: that is `none`. -/
def cv_saldo (saldos : List α) (s : α) : Option α :=
  if listMean saldos = 0 then some 1
  else if saldos.length ≤ 1 then none
  else some (s / listMean saldos)

/-- `cv < c` under float semantics: a comparison with NaN is `False`. -/
def cvLtB (cv : Option α) (c : α) : Bool :=
  match cv with
  | none => false
  | some x => decide (x < c)

/-- `burn_rate = abs(deltas[deltas < 0].mean()) if len(deltas[deltas < 0]) > 0 else 0`
(lines 300-302 of `dashboard_novo.py`, duplicated at its other call sites). -/
def burn_rate (saldos : List α) : α :=
  let negs := (listDeltas saldos).filter (fun d => decide (d < 0))
  if negs.length > 0 then |listMean negs| else 0

/-- `runway = saldo_atual / burn_rate if burn_rate > 0 else float('inf')`;
`none` is `float('inf')`. -/
def runway_meses (saldos : List α) : Option α :=
  if burn_rate saldos > 0 then some (saldos.getLastD 0 / burn_rate saldos) else none

/-- `runway > c` where `runway` may be `float('inf')` (`none`): infinity
exceeds every threshold. -/
def runwayGtB (r : Option α) (c : α) : Bool :=
  match r with
  | none => true
  | some x => decide (c < x)

/-- `runway < c` where `runway` may be `float('inf')` (`none`): infinity
is below no threshold. -/
def runwayLtB (r : Option α) (c : α) : Bool :=
  match r with
  | none => false
  | some x => decide (x < c)

/-- A possibly-NaN column value compared with `>= c`: NaN compares `False`. -/
def nanGeB (v : Option α) (c : α) : Bool :=
  match v with
  | none => false
  | some x => decide (c ≤ x)

/-- A possibly-NaN column value compared with `< c`: NaN compares `False`. -/
def nanLtB (v : Option α) (c : α) : Bool :=
  match v with
  | none => false
  | some x => decide (x < c)

/-- `calculate_hhi` of `dashboard_novo.py` (lines 235-241 and 277-284) and
`rag_system.py` (lines 88-94, identical body): `0` on the empty collection,
`0` when the total is `0`, otherwise `sum((v/total)**2 for v in values)`. -/
def calculate_hhi (values : List α) : α :=
  if values.length = 0 then 0
  else if values.sum = 0 then 0
  else (values.map (fun v => (v / values.sum) ^ 2)).sum

/-- `df[df['ID_PGTO'] == cnpj]`: the transactions the company pays. -/
def pagamentosDe (df : List (TransRow α)) (cnpj : Nat) : List (TransRow α) :=
  df.filter (fun r => r.id_pgto == cnpj)

/-- `df[df['ID_RCBE'] == cnpj]`: the transactions the company receives. -/
def recebimentosDe (df : List (TransRow α)) (cnpj : Nat) : List (TransRow α) :=
  df.filter (fun r => r.id_rcbe == cnpj)

/-- `rows.groupby(key)['VL'].sum().values`: one summed amount per distinct
counterparty key. -/
def groupSums (rows : List (TransRow α)) (key : TransRow α → Nat) : List α :=
  ((rows.map key).dedup).map
    (fun k => ((rows.filter (fun r => key r == k)).map (fun r => r.vl)).sum)

/-- The balance series of a company: the `VL_SLDO` column of its filtered
records. -/
def saldosDe (df_infos : List (InfoRow α)) (cnpj : Nat) : List α :=
  (dadosCnpj df_infos cnpj).map (fun r => r.vl_sldo)

/-- `dados_cnpj['VL_FATU'].iloc[0]`: the company's (per-company constant)
revenue. -/
def faturamentoDe (df_infos : List (InfoRow α)) (cnpj : Nat) : α :=
  ((dadosCnpj df_infos cnpj).map (fun r => r.vl_fatu)).headD 0

/-- `crescimento_saldo = ((saldo_final - saldo_inicial) / abs(saldo_inicial)) * 100
if saldo_inicial != 0 else 0`, on the ordered balance series. -/
def crescimento_saldo (saldos : List α) : α :=
  if saldos.headD 0 ≠ 0 then
    ((saldos.getLastD 0 - saldos.headD 0) / |saldos.headD 0|) * 100
  else 0

/-- `calcular_momento_vida` (`dashboard_novo.py` lines 140-175). `s` is
`series.std()` as explained at `cv_saldo`. -/
def calcular_momento_vida (df_infos : List (InfoRow α)) (cnpj : Nat) (s : α) :
    String × α :=
  let dados := dadosCnpj df_infos cnpj
  if dados.length = 0 then ("N/A", 0)
  else
    let saldos := dados.map (fun r => r.vl_sldo)
    let idade_meses := dados.length
    let cresc := crescimento_saldo saldos
    let cv := cv_saldo saldos s
    if idade_meses ≤ 2 then ("Iniciante", 20)
    else if decide (cresc > 20) && cvLtB cv (3 / 10) then ("Desenvolvimento", 80)
    else if decide (cresc > 0) && cvLtB cv (1 / 2) then ("Madura", 60)
    else if cresc < -10 then ("Declínio", 20)
    else ("Madura", 50)

/-- Modelled from the claim and spec §4.3: the LifeStageClassifier priority
ladder on already-derived inputs, first matching rule winning.  The code's
Portuguese labels are the spec's stages: "Iniciante" = Starting,
"Desenvolvimento" = Growing, "Madura" = Mature, "Declínio" = Declining. -/
def momentoVidaSpec (idade_meses : Nat) (growth_pct : α) (cv : Option α) :
    String × α :=
  if idade_meses ≤ 2 then ("Iniciante", 20)
  else if decide (growth_pct > 20) && cvLtB cv (3 / 10) then ("Desenvolvimento", 80)
  else if decide (growth_pct > 0) && cvLtB cv (1 / 2) then ("Madura", 60)
  else if growth_pct < -10 then ("Declínio", 20)
  else ("Madura", 50)

/-- Health sub-score 1 (weight 0.30): `min(100, max(0, 50 + crescimento * 2))`. -/
def score_crescimento (cresc : α) : α := min 100 (max 0 (50 + cresc * 2))

/-- Health sub-score 2 (weight 0.25): `min(100, max(0, 100 - cv_saldo * 100))`.
When `cv_saldo` is NaN (`none`, one-record series with nonzero mean),
CPython gives `max(0, nan) = 0` and then `min(100, 0) = 0`. -/
def score_estabilidade (cv : Option α) : α :=
  match cv with
  | none => 0
  | some c => min 100 (max 0 (100 - c * 100))

/-- Health sub-score 3 (weight 0.25):
`ratio = (saldo_atual / faturamento) * 100 if faturamento != 0 else 0`;
`min(100, max(0, ratio * 0.5))`. -/
def score_posicao (saldo_atual faturamento : α) : α :=
  min 100 (max 0 ((if faturamento ≠ 0 then (saldo_atual / faturamento) * 100 else 0) * (1 / 2)))

/-- Health sub-score 4 (weight 0.20): the percentage of positive
month-over-month deltas, `50` for a series with fewer than 2 records. -/
def score_tendencia (saldos : List α) : α :=
  if saldos.length > 1 then
    ((((listDeltas saldos).filter (fun d => decide (d > 0))).length : α)
      / ((listDeltas saldos).length : α)) * 100
  else 50

/-- `calcular_saude_empresa` (`dashboard_novo.py` lines 177-221).  The
`df_transacoes` argument is kept for signature fidelity; the source never
reads it.  `s` is `series.std()` as explained at `cv_saldo`. -/
def calcular_saude_empresa (df_infos : List (InfoRow α))
    (df_transacoes : List (TransRow α)) (cnpj : Nat) (s : α) : α × String :=
  let _ := df_transacoes
  let dados := dadosCnpj df_infos cnpj
  if dados.length = 0 then (0, "N/A")
  else
    let saldos := dados.map (fun r => r.vl_sldo)
    let sc := score_crescimento (crescimento_saldo saldos)
    let se := score_estabilidade (cv_saldo saldos s)
    let sp := score_posicao (saldos.getLastD 0) ((dados.map (fun r => r.vl_fatu)).headD 0)
    let st := score_tendencia saldos
    let score_final :=
      min 100 (max 0 (sc * (3 / 10) + se * (1 / 4) + sp * (1 / 4) + st * (1 / 5)))
    (score_final,
      if score_final ≥ 80 then "Alta" else if score_final ≥ 60 then "Média" else "Baixa")

/-- Credit-score dimension 1, `score_liquidez` (lines 327-337). -/
def score_liquidez (saldo_atual : α) (rw : Option α) : α :=
  if decide (saldo_atual > 0) && runwayGtB rw 12 then 20
  else if decide (saldo_atual > 0) && runwayGtB rw 6 then 15
  else if decide (saldo_atual > 0) && runwayGtB rw 3 then 10
  else if decide (saldo_atual > 0) then 5
  else 0

/-- Credit-score dimension 2, `score_relacionamentos` (lines 339-349). -/
def score_relacionamentos (num_relacionamentos : Nat) (hhi_medio : α) : α :=
  if decide (num_relacionamentos > 20) && decide (hhi_medio < 3 / 10) then 20
  else if decide (num_relacionamentos > 15) && decide (hhi_medio < 1 / 2) then 15
  else if decide (num_relacionamentos > 10) && decide (hhi_medio < 7 / 10) then 10
  else if decide (num_relacionamentos > 5) then 5
  else 0

/-- Credit-score dimension 3, `score_tendencias` (lines 351-361). -/
def score_tendencias (variacao_saldo saldo_atual : α) (cv : Option α) : α :=
  if decide (variacao_saldo > 0) && cvLtB cv (1 / 5) then 20
  else if decide (variacao_saldo > 0) && cvLtB cv (2 / 5) then 15
  else if decide (variacao_saldo > 0) then 10
  else if decide (variacao_saldo > -saldo_atual * (1 / 10)) then 5
  else 0

/-- Credit-score dimension 4, `score_atividade` (lines 363-373). -/
def score_atividade (volume_total : α) (idade_meses : Nat) : α :=
  if decide (volume_total > 1000000) && decide (idade_meses ≥ 4) then 20
  else if decide (volume_total > 500000) && decide (idade_meses ≥ 3) then 15
  else if decide (volume_total > 100000) && decide (idade_meses ≥ 2) then 10
  else if decide (volume_total > 0) then 5
  else 0

/-- Credit-score dimension 5, `score_risco` (lines 375-385). -/
def score_risco (saldo_atual burn : α) (cv : Option α) : α :=
  if decide (saldo_atual > 0) && decide (burn < saldo_atual * (1 / 10)) && cvLtB cv (3 / 10) then 20
  else if decide (saldo_atual > 0) && decide (burn < saldo_atual * (1 / 5)) && cvLtB cv (1 / 2) then 15
  else if decide (saldo_atual > 0) && decide (burn < saldo_atual * (3 / 10)) then 10
  else if decide (saldo_atual > 0) then 5
  else 0

/-- The `detalhamento` dict returned by `calcular_score_santander` for a
company that is present in the records. -/
structure Detalhamento (α : Type) where
  liquidez : α
  relacionamentos : α
  tendencias : α
  atividade : α
  risco : α
  total : α

/-- `calcular_score_santander` (`dashboard_novo.py` lines 274-400).  A
missing company returns `(0, {})`, modelled as `(0, none)`.  `s` is
`series.std()` as explained at `cv_saldo`. -/
def calcular_score_santander (df_infos : List (InfoRow α))
    (df_transacoes : List (TransRow α)) (cnpj : Nat) (s : α) :
    α × Option (Detalhamento α) :=
  let dados := dadosCnpj df_infos cnpj
  if dados.length = 0 then (0, none)
  else
    let saldos := dados.map (fun r => r.vl_sldo)
    let idade_meses := dados.length
    let saldo_atual := saldos.getLastD 0
    let saldo_inicial := saldos.headD 0
    let variacao_saldo := saldo_atual - saldo_inicial
    let rw := runway_meses saldos
    let pagamentos := pagamentosDe df_transacoes cnpj
    let recebimentos := recebimentosDe df_transacoes cnpj
    let hhi_medio :=
      (calculate_hhi (groupSums pagamentos (fun r => r.id_rcbe))
        + calculate_hhi (groupSums recebimentos (fun r => r.id_pgto))) / 2
    let num_relacionamentos :=
      ((pagamentos.map (fun r => r.id_rcbe)) ++ (recebimentos.map (fun r => r.id_pgto))).dedup.length
    let volume_total :=
      ((pagamentos.map (fun r => r.vl)).sum + (recebimentos.map (fun r => r.vl)).sum : α)
    let cv := cv_saldo saldos s
    let sl := score_liquidez saldo_atual rw
    let sr := score_relacionamentos num_relacionamentos hhi_medio
    let st := score_tendencias variacao_saldo saldo_atual cv
    let sa := score_atividade volume_total idade_meses
    let sk := score_risco saldo_atual (burn_rate saldos) cv
    let score_total := sl + sr + st + sa + sk
    (score_total, some ⟨sl, sr, st, sa, sk, score_total⟩)

/-- Modelled from the claim and spec §4.6: a priority ladder evaluated
top-down, the first satisfied condition selecting its tier, the final
entry the fallback. -/
def tierLadder (levels : List (Bool × α)) (fallback : α) : α :=
  match levels with
  | [] => fallback
  | (c, v) :: rest => if c then v else tierLadder rest fallback

/-- `flag_stress_caixa` (`dashboard_novo.py` lines 1617-1631): the burn
rate and runway are derived from the `Delta` column (the same
month-over-month deltas), and the flag is
`saldo_atual < 0 or runway_meses < 3 or burn_rate_mes > saldo_atual * 0.5`. -/
def flag_stress_caixa (saldos : List α) : Bool :=
  let saldo_atual := saldos.getLastD 0
  decide (saldo_atual < 0) || runwayLtB (runway_meses saldos) 3
    || decide (burn_rate saldos > saldo_atual * (1 / 2))

/-- `ultimo_mes_data = df_analisada[df_analisada['MES'] == df_analisada['MES'].max()]`. -/
def ultimo_mes_data (rows : List (AnalisadaRow α)) : List (AnalisadaRow α) :=
  rows.filter (fun r => r.mes == (rows.map (fun x => x.mes)).foldr max 0)

/-- The "ideal for credit" filter, `empresas_ideais`
(`dashboard_novo.py` lines 526-533). -/
def empresas_ideais (snapshot : List (AnalisadaRow α)) : List (AnalisadaRow α) :=
  snapshot.filter (fun r =>
    decide (r.score_saude ≥ r.q25_health) &&
    decide (r.score_risco < r.q75_risk) &&
    nanGeB r.runway_meses 1 &&
    decide (r.flag_stress_caixa = 0) &&
    decide (r.grow_volume > 0) &&
    (r.estado == "Madura" || r.estado == "Desenvolvimento"))

/-- The "high risk" filter, `empresas_perigosas`
(`dashboard_novo.py` lines 613-620). -/
def empresas_perigosas (snapshot : List (AnalisadaRow α)) : List (AnalisadaRow α) :=
  snapshot.filter (fun r =>
    decide (r.score_saude ≤ r.q25_health) &&
    decide (r.score_risco ≥ r.q75_risk) &&
    (nanLtB r.runway_meses 3 || r.runway_meses.isNone) &&
    decide (r.flag_stress_caixa = 1) &&
    decide (r.grow_volume < 0) &&
    (r.estado == "Declínio" || r.estado == "Declínio Persistente"))

/-! ## Helper lemmas -/

theorem sum_map_div (l : List α) (c : α) :
    (l.map (fun v => v / c)).sum = l.sum / c := by
  induction l with
  | nil => simp
  | cons a t ih => simp [ih, add_div]

/-! ## C3 -/

/-- C3: `calculate_hhi` returns `Σ (vᵢ/total)²` with `total = Σ vᵢ`; it
returns `0` for the empty collection and when `total = 0`; and when every
value is positive (the data-model invariant `amount > 0`) the result lies
in `[0, 1]`. -/
theorem calculate_hhi_formula_and_bounds (values : List α) :
    calculate_hhi ([] : List α) = 0
    ∧ (values.sum = 0 → calculate_hhi values = 0)
    ∧ (values ≠ [] → values.sum ≠ 0 →
        calculate_hhi values = (values.map (fun v => (v / values.sum) ^ 2)).sum)
    ∧ ((∀ v ∈ values, 0 < v) →
        0 ≤ calculate_hhi values ∧ calculate_hhi values ≤ 1) := by
  refine ⟨by simp [calculate_hhi], ?_, ?_, ?_⟩
  · intro h
    simp [calculate_hhi, h]
  · intro hne hsum
    simp [calculate_hhi, List.length_eq_zero, hne, hsum]
  · intro hpos
    rcases eq_or_ne values [] with rfl | hne
    · simp [calculate_hhi]
    · have hsumpos : 0 < values.sum := by
        rcases values with _ | ⟨a, t⟩
        · exact absurd rfl hne
        · have h0 : ∀ v ∈ a :: t, 0 ≤ v := fun v hv => le_of_lt (hpos v hv)
          have ht : 0 ≤ t.sum := List.sum_nonneg (fun v hv => h0 v (List.mem_cons_of_mem a hv))
          have ha : 0 < a := hpos a (List.mem_cons_self a t)
          simpa using add_pos_of_pos_of_nonneg ha ht
      have hform : calculate_hhi values = (values.map (fun v => (v / values.sum) ^ 2)).sum := by
        simp [calculate_hhi, List.length_eq_zero, hne, ne_of_gt hsumpos]
      constructor
      · rw [hform]
        exact List.sum_nonneg (by
          intro x hx
          simp only [List.mem_map] at hx
          obtain ⟨v, _, rfl⟩ := hx
          positivity)
      · rw [hform]
        have hstep : (values.map (fun v => (v / values.sum) ^ 2)).sum
            ≤ (values.map (fun v => v / values.sum)).sum := by
          apply List.sum_le_sum
          intro v hv
          have hv0 : 0 < v := hpos v hv
          have hvle : v ≤ values.sum :=
            List.single_le_sum (fun x hx => le_of_lt (hpos x hx)) v hv
          have h1 : 0 ≤ v / values.sum := by positivity
          have h2 : v / values.sum ≤ 1 := (div_le_one hsumpos).mpr hvle
          nlinarith
        have hone : (values.map (fun v => v / values.sum)).sum = 1 := by
          rw [sum_map_div, div_self (ne_of_gt hsumpos)]
        calc (values.map (fun v => (v / values.sum) ^ 2)).sum
            ≤ (values.map (fun v => v / values.sum)).sum := hstep
          _ = 1 := hone

/-- Witness for C3: the collection `[1, 3]` of positive values evaluates as
claimed. -/
theorem calculate_hhi_formula_and_bounds_witness :
    ((1 : ℚ) + 3 = 0 → calculate_hhi [(1 : ℚ), 3] = 0)
    ∧ calculate_hhi [(1 : ℚ), 3] = (5 : ℚ) / 8
    ∧ (0 : ℚ) ≤ calculate_hhi [(1 : ℚ), 3] ∧ calculate_hhi [(1 : ℚ), 3] ≤ 1 := by
  have h := calculate_hhi_formula_and_bounds [(1 : ℚ), 3]
  have hb := h.2.2.2 (by intro v hv; fin_cases hv <;> norm_num)
  refine ⟨by intro hc; norm_num at hc, ?_, hb⟩
  have hf := h.2.2.1 (by simp) (by norm_num)
  rw [hf]
  norm_num

/-! ## C4 -/

/-- C4 counterexample: the single-counterparty collection `[0]` has
`calculate_hhi [0] = 0`, not `1` (the `total == 0` guard fires), so the
claim "HHI of a single-counterparty collection `[x]` equals 1" fails at
`x = 0`. -/
theorem calculate_hhi_single_zero_counterexample :
    calculate_hhi [(0 : ℚ)] = 0 ∧ calculate_hhi [(0 : ℚ)] ≠ 1 := by
  constructor <;> simp [calculate_hhi]

/-- C4 (amended): `HHI([]) = 0`; `HHI([x]) = 1` for a single counterparty
with a nonzero value; and `HHI` is invariant under scaling every value by
the same positive constant. -/
theorem calculate_hhi_empty_single_scaling :
    calculate_hhi ([] : List α) = 0
    ∧ (∀ x : α, x ≠ 0 → calculate_hhi [x] = 1)
    ∧ (∀ (l : List α) (c : α), 0 < c →
        calculate_hhi (l.map (fun v => c * v)) = calculate_hhi l) := by
  refine ⟨by simp [calculate_hhi], ?_, ?_⟩
  · intro x hx
    simp [calculate_hhi, hx, div_self hx]
  · intro l c hc
    have hc0 : c ≠ 0 := ne_of_gt hc
    have hsum : (l.map (fun v => c * v)).sum = c * l.sum := by
      simpa using List.sum_map_mul_left l id c
    rcases eq_or_ne l [] with rfl | hne
    · simp
    · rcases eq_or_ne l.sum 0 with hz | hz
      · simp [calculate_hhi, hsum, hz, List.length_eq_zero, hne]
      · have hz' : c * l.sum ≠ 0 := mul_ne_zero hc0 hz
        have hlen : (l.map (fun v => c * v)).length ≠ 0 := by
          simpa [List.length_eq_zero] using hne
        simp only [calculate_hhi, hsum, List.length_map, List.length_eq_zero, hne,
          if_false, hz, hz', List.map_map]
        congr 1
        apply List.map_congr_left
        intro v _
        simp only [Function.comp]
        rw [mul_div_mul_left v l.sum hc0]

/-- Witness for C4 (amended): `x = 7` and the collection `[1, 3]` scaled by
`c = 5`. -/
theorem calculate_hhi_empty_single_scaling_witness :
    calculate_hhi [(7 : ℚ)] = 1
    ∧ calculate_hhi [(5 : ℚ) * 1, 5 * 3] = calculate_hhi [(1 : ℚ), 3] := by
  refine ⟨calculate_hhi_empty_single_scaling.2.1 7 (by norm_num), ?_⟩
  have h := calculate_hhi_empty_single_scaling.2.2 [(1 : ℚ), 3] 5 (by norm_num)
  simpa using h

/-! ## C5 -/

theorem sum_map_abs_of_neg (l : List α) (h : ∀ x ∈ l, x < 0) :
    (l.map (fun d => |d|)).sum = -l.sum := by
  induction l with
  | nil => simp
  | cons a t ih =>
    simp only [List.map_cons, List.sum_cons]
    rw [abs_of_neg (h a (List.mem_cons_self a t)),
      ih (fun x hx => h x (List.mem_cons_of_mem a hx))]
    ring

theorem sum_neg_of_forall_neg (l : List α) (hne : l ≠ []) (h : ∀ x ∈ l, x < 0) :
    l.sum < 0 := by
  induction l with
  | nil => exact absurd rfl hne
  | cons a t ih =>
    rcases eq_or_ne t [] with rfl | ht
    · simpa using h a (by simp)
    · have h1 := ih ht (fun x hx => h x (List.mem_cons_of_mem a hx))
      have h2 := h a (List.mem_cons_self a t)
      simp only [List.sum_cons]
      linarith

/-- C5: `burn_rate` is the mean of the absolute values of the negative
month-over-month deltas (`0` when no negative delta exists); `runway` is
`current_balance / burn_rate` when `burn_rate > 0` and `+infinity`
(`none`) otherwise; in particular a series with no negative delta —
including every one-record series — has `burn_rate = 0` and
`runway = +infinity`. -/
theorem burn_rate_runway_liquidez (saldos : List α) :
    ((listDeltas saldos).filter (fun d => decide (d < 0)) ≠ [] →
      burn_rate saldos =
        listMean (((listDeltas saldos).filter (fun d => decide (d < 0))).map (fun d => |d|)))
    ∧ ((listDeltas saldos).filter (fun d => decide (d < 0)) = [] →
      burn_rate saldos = 0 ∧ runway_meses saldos = none)
    ∧ runway_meses saldos =
        (if burn_rate saldos > 0 then some (saldos.getLastD 0 / burn_rate saldos) else none)
    ∧ (saldos.length = 1 → burn_rate saldos = 0 ∧ runway_meses saldos = none) := by
  have hmem : ∀ x ∈ (listDeltas saldos).filter (fun d => decide (d < 0)), x < 0 := by
    intro x hx
    have := (List.mem_filter.mp hx).2
    simpa using this
  have hzero : (listDeltas saldos).filter (fun d => decide (d < 0)) = [] →
      burn_rate saldos = 0 ∧ runway_meses saldos = none := by
    intro h
    have hb : burn_rate saldos = 0 := by
      simp [burn_rate, h]
    exact ⟨hb, by simp [runway_meses, hb]⟩
  refine ⟨?_, hzero, rfl, ?_⟩
  · intro hne
    set negs := (listDeltas saldos).filter (fun d => decide (d < 0)) with hnegs
    have hlen : 0 < negs.length := List.length_pos.mpr hne
    have hsum : negs.sum < 0 := sum_neg_of_forall_neg negs hne hmem
    have habs : (negs.map (fun d => |d|)).sum = -negs.sum := sum_map_abs_of_neg negs hmem
    have hcast : (0 : α) < (negs.length : α) := by exact_mod_cast hlen
    have hburn : burn_rate saldos = |listMean negs| := by
      simp [burn_rate, hnegs, hlen]
    rw [hburn, listMean, listMean, habs, List.length_map, abs_div,
      abs_of_neg hsum, abs_of_pos hcast]
  · intro hone
    obtain ⟨x, rfl⟩ := List.length_eq_one.mp hone
    exact hzero (by simp [listDeltas])

/-- Witness for C5: the series `[5, 3, 4]` (one negative delta `-2`) and
the one-record series `[7]`. -/
theorem burn_rate_runway_liquidez_witness :
    burn_rate [(5 : ℚ), 3, 4] = listMean [|(-2 : ℚ)|]
    ∧ burn_rate [(7 : ℚ)] = 0 ∧ runway_meses [(7 : ℚ)] = none := by
  have h1 := (burn_rate_runway_liquidez [(5 : ℚ), 3, 4]).1
    (by norm_num [listDeltas, List.filter])
  have h2 := (burn_rate_runway_liquidez [(7 : ℚ)]).2.2.2 (by norm_num)
  refine ⟨?_, h2⟩
  rw [h1]
  norm_num [listDeltas, List.filter]

/-! ## C6 -/

/-- C6: the cash-stress flag of the liquidity analysis is set if and only
if the balance is negative, or the runway is below 3 months, or the
balance is positive and the burn rate exceeds half of it.  (The code tests
`burn_rate > saldo * 0.5` without the `saldo > 0` guard, but when
`saldo = 0` a positive burn rate forces `runway = 0 < 3`, so the two forms
agree.) -/
theorem flag_stress_caixa_iff (saldos : List α) :
    flag_stress_caixa saldos = true ↔
      (saldos.getLastD 0 < 0
        ∨ runwayLtB (runway_meses saldos) 3 = true
        ∨ (0 < saldos.getLastD 0
            ∧ saldos.getLastD 0 * (1 / 2) < burn_rate saldos)) := by
  simp only [flag_stress_caixa, Bool.or_eq_true, decide_eq_true_eq]
  constructor
  · rintro ((h | h) | h)
    · exact Or.inl h
    · exact Or.inr (Or.inl h)
    · rcases lt_trichotomy (saldos.getLastD 0) 0 with hval | hval | hval
      · exact Or.inl hval
      · refine Or.inr (Or.inl ?_)
        have hb : 0 < burn_rate saldos := by
          rw [hval] at h
          simpa using h
        have hrw : runway_meses saldos = some (saldos.getLastD 0 / burn_rate saldos) := by
          simp [runway_meses, hb]
        rw [hrw, hval]
        simp [runwayLtB, zero_div]
      · exact Or.inr (Or.inr ⟨hval, h⟩)
  · rintro (h | h | h)
    · exact Or.inl (Or.inl h)
    · exact Or.inl (Or.inr h)
    · exact Or.inr h.2

/-- Witness for C6: the series `[10, 1]` burns 9 with balance 1, so the
flag is set through the third disjunct. -/
theorem flag_stress_caixa_iff_witness :
    flag_stress_caixa [(10 : ℚ), 1] = true := by
  refine (flag_stress_caixa_iff [(10 : ℚ), 1]).mpr (Or.inr (Or.inr ⟨?_, ?_⟩))
  · norm_num
  · norm_num [burn_rate, listDeltas, listMean, List.filter]

/-! ## C10 -/

/-- C10: for a balance series with strictly negative mean and positive
standard deviation, the coefficient of variation `std/mean` computed by
`calcular_saude_empresa` is negative, so the stability sub-score
`min(100, max(0, 100 - cv*100))` clips to exactly `100`. -/
theorem score_estabilidade_neg_mean (saldos : List α) (s : α)
    (hmean : listMean saldos < 0) (hs : 0 < s) (hvar : s ^ 2 = sampleVar saldos) :
    cv_saldo saldos s = some (s / listMean saldos)
    ∧ s / listMean saldos < 0
    ∧ score_estabilidade (cv_saldo saldos s) = 100 := by
  have hmean0 : listMean saldos ≠ 0 := ne_of_lt hmean
  have hlen : ¬ saldos.length ≤ 1 := by
    intro hle
    interval_cases h : saldos.length
    · rw [List.length_eq_zero.mp h] at hmean
      simp [listMean] at hmean
    · obtain ⟨x, rfl⟩ := List.length_eq_one.mp h
      have : sampleVar [x] = 0 := by
        simp [sampleVar]
      rw [this] at hvar
      have := pow_eq_zero_iff (n := 2) (by norm_num) |>.mp hvar
      exact absurd this (ne_of_gt hs)
  have hcv : cv_saldo saldos s = some (s / listMean saldos) := by
    simp [cv_saldo, hmean0, hlen]
  have hneg : s / listMean saldos < 0 := div_neg_of_pos_of_neg hs hmean
  refine ⟨hcv, hneg, ?_⟩
  rw [hcv]
  have h100 : (100 : α) ≤ 100 - (s / listMean saldos) * 100 := by nlinarith
  simp only [score_estabilidade]
  rw [max_eq_right (le_trans (by norm_num) h100), min_eq_left h100]

/-- Witness for C10: the series `[-2, -1, 0]` has mean `-1` and sample
standard deviation `1`, and its stability sub-score is `100`. -/
theorem score_estabilidade_neg_mean_witness :
    listMean [(-2 : ℚ), -1, 0] < 0
    ∧ (1 : ℚ) ^ 2 = sampleVar [(-2 : ℚ), -1, 0]
    ∧ score_estabilidade (cv_saldo [(-2 : ℚ), -1, 0] 1) = 100 := by
  have h1 : listMean [(-2 : ℚ), -1, 0] < 0 := by norm_num [listMean]
  have h2 : (1 : ℚ) ^ 2 = sampleVar [(-2 : ℚ), -1, 0] := by
    norm_num [sampleVar, listMean]
  exact ⟨h1, h2,
    (score_estabilidade_neg_mean [(-2 : ℚ), -1, 0] 1 h1 (by norm_num) h2).2.2⟩

/-! ## C8 -/

/-- C8 counterexample: for a company id absent from the records
`calcular_score_santander` returns `(0, {})` — score `0` with the EMPTY
per-dimension breakdown (`none`), which contains no category at all — so
the claim that every scorer returns category "N/A" fails on it. -/
theorem missing_company_santander_counterexample :
    calcular_score_santander ([] : List (InfoRow ℚ)) ([] : List (TransRow ℚ)) 7 1
      = (0, none)
    ∧ (calcular_score_santander ([] : List (InfoRow ℚ)) ([] : List (TransRow ℚ)) 7 1).2.isSome
      = false := by
  constructor <;> simp [calcular_score_santander, dadosCnpj]

/-- C8 (amended): for a company id absent from the records each scorer
returns its neutral default and (being a total function) never raises:
`calcular_momento_vida` returns `("N/A", 0)`, `calcular_saude_empresa`
returns `(0, "N/A")`, and `calcular_score_santander` returns score `0`
with the empty breakdown. -/
theorem missing_company_defaults (df_infos : List (InfoRow α))
    (df_transacoes : List (TransRow α)) (cnpj : Nat) (s : α)
    (habs : dadosCnpj df_infos cnpj = []) :
    calcular_momento_vida df_infos cnpj s = ("N/A", 0)
    ∧ calcular_saude_empresa df_infos df_transacoes cnpj s = (0, "N/A")
    ∧ calcular_score_santander df_infos df_transacoes cnpj s = (0, none) := by
  refine ⟨?_, ?_, ?_⟩ <;>
    simp [calcular_momento_vida, calcular_saude_empresa, calcular_score_santander, habs]

/-- Witness for C8: company `2` is absent from a one-company record set. -/
theorem missing_company_defaults_witness :
    calcular_momento_vida [(⟨1, 5, 6⟩ : InfoRow ℚ)] 2 1 = ("N/A", 0)
    ∧ calcular_saude_empresa [(⟨1, 5, 6⟩ : InfoRow ℚ)] [] 2 1 = (0, "N/A")
    ∧ calcular_score_santander [(⟨1, 5, 6⟩ : InfoRow ℚ)] [] 2 1 = (0, none) :=
  missing_company_defaults _ _ _ _ (by simp [dadosCnpj])

/-! ## C1 -/

/-- C1: for every company present in the records, the health score lies in
`[0, 100]` regardless of how extreme the balances, the revenue or the
standard deviation `s` are; it equals the clip to `[0, 100]` of
`0.30 * clip(50 + growth*2) + 0.25 * clip(100 - cv*100)
 + 0.25 * clip((balance/revenue*100)*0.5) + 0.20 * trend`
(balance-position sub-score `0` when the revenue is `0`, trend the
percentage of positive deltas with fallback `50` below 2 records); and the
category is "Alta" for `score ≥ 80`, "Média" for `score ≥ 60`, "Baixa"
otherwise. -/
theorem calcular_saude_empresa_spec (df_infos : List (InfoRow α))
    (df_transacoes : List (TransRow α)) (cnpj : Nat) (s : α)
    (hpres : dadosCnpj df_infos cnpj ≠ []) :
    (0 ≤ (calcular_saude_empresa df_infos df_transacoes cnpj s).1
      ∧ (calcular_saude_empresa df_infos df_transacoes cnpj s).1 ≤ 100)
    ∧ (calcular_saude_empresa df_infos df_transacoes cnpj s).1
        = min 100 (max 0
            (score_crescimento (crescimento_saldo (saldosDe df_infos cnpj)) * (3 / 10)
              + score_estabilidade (cv_saldo (saldosDe df_infos cnpj) s) * (1 / 4)
              + score_posicao ((saldosDe df_infos cnpj).getLastD 0) (faturamentoDe df_infos cnpj) * (1 / 4)
              + score_tendencia (saldosDe df_infos cnpj) * (1 / 5)))
    ∧ (calcular_saude_empresa df_infos df_transacoes cnpj s).2
        = (if 80 ≤ (calcular_saude_empresa df_infos df_transacoes cnpj s).1 then "Alta"
            else if 60 ≤ (calcular_saude_empresa df_infos df_transacoes cnpj s).1 then "Média"
            else "Baixa") := by
  have hlen : ¬ (dadosCnpj df_infos cnpj).length = 0 := by
    simpa [List.length_eq_zero] using hpres
  refine ⟨?_, ?_, ?_⟩
  · simp only [calcular_saude_empresa, if_neg hlen]
    exact ⟨le_min (by norm_num) (le_max_left _ _), min_le_left _ _⟩
  · simp only [calcular_saude_empresa, saldosDe, faturamentoDe, if_neg hlen]
  · simp only [calcular_saude_empresa, if_neg hlen]

/-- Witness for C1: a three-record company with balances `[0, 1, 2]` and
revenue `500`. -/
theorem calcular_saude_empresa_spec_witness :
    dadosCnpj [(⟨1, 0, 500⟩ : InfoRow ℚ), ⟨1, 1, 500⟩, ⟨1, 2, 500⟩] 1 ≠ []
    ∧ 0 ≤ (calcular_saude_empresa
        [(⟨1, 0, 500⟩ : InfoRow ℚ), ⟨1, 1, 500⟩, ⟨1, 2, 500⟩] [] 1 1).1
    ∧ (calcular_saude_empresa
        [(⟨1, 0, 500⟩ : InfoRow ℚ), ⟨1, 1, 500⟩, ⟨1, 2, 500⟩] [] 1 1).1 ≤ 100 := by
  have hne : dadosCnpj [(⟨1, 0, 500⟩ : InfoRow ℚ), ⟨1, 1, 500⟩, ⟨1, 2, 500⟩] 1 ≠ [] := by
    simp [dadosCnpj]
  have h := (calcular_saude_empresa_spec
    [(⟨1, 0, 500⟩ : InfoRow ℚ), ⟨1, 1, 500⟩, ⟨1, 2, 500⟩] [] 1 1 hne).1
  exact ⟨hne, h.1, h.2⟩

/-! ## C2 -/

theorem score_liquidez_mem (a : α) (r : Option α) :
    score_liquidez a r ∈ ([0, 5, 10, 15, 20] : List α) := by
  unfold score_liquidez
  split_ifs <;> simp

theorem score_relacionamentos_mem (n : Nat) (h : α) :
    score_relacionamentos n h ∈ ([0, 5, 10, 15, 20] : List α) := by
  unfold score_relacionamentos
  split_ifs <;> simp

theorem score_tendencias_mem (v a : α) (c : Option α) :
    score_tendencias v a c ∈ ([0, 5, 10, 15, 20] : List α) := by
  unfold score_tendencias
  split_ifs <;> simp

theorem score_atividade_mem (v : α) (i : Nat) :
    score_atividade v i ∈ ([0, 5, 10, 15, 20] : List α) := by
  unfold score_atividade
  split_ifs <;> simp

theorem score_risco_mem (a b : α) (c : Option α) :
    score_risco a b c ∈ ([0, 5, 10, 15, 20] : List α) := by
  unfold score_risco
  split_ifs <;> simp

theorem tier_bounds {x : α} (hx : x ∈ ([0, 5, 10, 15, 20] : List α)) :
    0 ≤ x ∧ x ≤ 20 := by
  simp only [List.mem_cons, List.mem_singleton] at hx
  rcases hx with rfl | rfl | rfl | rfl | rfl | h
  · norm_num
  · norm_num
  · norm_num
  · norm_num
  · norm_num
  · simp at h

theorem tier_sum_bounds (x1 x2 x3 x4 x5 : α)
    (h1 : x1 ∈ ([0, 5, 10, 15, 20] : List α))
    (h2 : x2 ∈ ([0, 5, 10, 15, 20] : List α))
    (h3 : x3 ∈ ([0, 5, 10, 15, 20] : List α))
    (h4 : x4 ∈ ([0, 5, 10, 15, 20] : List α))
    (h5 : x5 ∈ ([0, 5, 10, 15, 20] : List α)) :
    0 ≤ x1 + x2 + x3 + x4 + x5 ∧ x1 + x2 + x3 + x4 + x5 ≤ 100 := by
  obtain ⟨a1, b1⟩ := tier_bounds h1
  obtain ⟨a2, b2⟩ := tier_bounds h2
  obtain ⟨a3, b3⟩ := tier_bounds h3
  obtain ⟨a4, b4⟩ := tier_bounds h4
  obtain ⟨a5, b5⟩ := tier_bounds h5
  exact ⟨by linarith, by linarith⟩

/-- C2: for every company present in the records, the Santander score
total equals the sum of its five dimension tiers, each tier is one of
`{0, 5, 10, 15, 20}` and equals its priority ladder evaluated top-down
(first satisfied condition wins, `tierLadder`), and the total lies in
`[0, 100]`. -/
theorem calcular_score_santander_spec (df_infos : List (InfoRow α))
    (df_transacoes : List (TransRow α)) (cnpj : Nat) (s : α)
    (hpres : dadosCnpj df_infos cnpj ≠ []) :
    (∃ d : Detalhamento α,
      calcular_score_santander df_infos df_transacoes cnpj s = (d.total, some d)
      ∧ d.total = d.liquidez + d.relacionamentos + d.tendencias + d.atividade + d.risco
      ∧ d.liquidez ∈ ([0, 5, 10, 15, 20] : List α)
      ∧ d.relacionamentos ∈ ([0, 5, 10, 15, 20] : List α)
      ∧ d.tendencias ∈ ([0, 5, 10, 15, 20] : List α)
      ∧ d.atividade ∈ ([0, 5, 10, 15, 20] : List α)
      ∧ d.risco ∈ ([0, 5, 10, 15, 20] : List α)
      ∧ 0 ≤ d.total ∧ d.total ≤ 100)
    ∧ (∀ (a : α) (r : Option α), score_liquidez a r =
        tierLadder [(decide (a > 0) && runwayGtB r 12, 20),
          (decide (a > 0) && runwayGtB r 6, 15),
          (decide (a > 0) && runwayGtB r 3, 10),
          (decide (a > 0), 5)] 0)
    ∧ (∀ (n : Nat) (h : α), score_relacionamentos n h =
        tierLadder [(decide (n > 20) && decide (h < 3 / 10), 20),
          (decide (n > 15) && decide (h < 1 / 2), 15),
          (decide (n > 10) && decide (h < 7 / 10), 10),
          (decide (n > 5), 5)] 0)
    ∧ (∀ (v a : α) (c : Option α), score_tendencias v a c =
        tierLadder [(decide (v > 0) && cvLtB c (1 / 5), 20),
          (decide (v > 0) && cvLtB c (2 / 5), 15),
          (decide (v > 0), 10),
          (decide (v > -a * (1 / 10)), 5)] 0)
    ∧ (∀ (v : α) (i : Nat), score_atividade v i =
        tierLadder [(decide (v > 1000000) && decide (i ≥ 4), 20),
          (decide (v > 500000) && decide (i ≥ 3), 15),
          (decide (v > 100000) && decide (i ≥ 2), 10),
          (decide (v > 0), 5)] 0)
    ∧ (∀ (a b : α) (c : Option α), score_risco a b c =
        tierLadder [(decide (a > 0) && decide (b < a * (1 / 10)) && cvLtB c (3 / 10), 20),
          (decide (a > 0) && decide (b < a * (1 / 5)) && cvLtB c (1 / 2), 15),
          (decide (a > 0) && decide (b < a * (3 / 10)), 10),
          (decide (a > 0), 5)] 0) := by
  have hlen : ¬ (dadosCnpj df_infos cnpj).length = 0 := by
    simpa [List.length_eq_zero] using hpres
  refine ⟨?_, fun a r => rfl, fun n h => rfl, fun v a c => rfl,
    fun v i => rfl, fun a b c => rfl⟩
  simp only [calcular_score_santander, if_neg hlen]
  refine ⟨⟨_, _, _, _, _, _⟩, rfl, rfl, score_liquidez_mem _ _, score_relacionamentos_mem _ _,
    score_tendencias_mem _ _ _, score_atividade_mem _ _, score_risco_mem _ _ _, ?_, ?_⟩
  · dsimp only
    exact (tier_sum_bounds _ _ _ _ _ (score_liquidez_mem _ _) (score_relacionamentos_mem _ _)
      (score_tendencias_mem _ _ _) (score_atividade_mem _ _) (score_risco_mem _ _ _)).1
  · dsimp only
    exact (tier_sum_bounds _ _ _ _ _ (score_liquidez_mem _ _) (score_relacionamentos_mem _ _)
      (score_tendencias_mem _ _ _) (score_atividade_mem _ _) (score_risco_mem _ _ _)).2

/-- Witness for C2: a three-record company (balances `[100, 150, 120]`)
with one payment and one receipt. -/
theorem calcular_score_santander_spec_witness :
    ∃ d : Detalhamento ℚ,
      calcular_score_santander
          [(⟨1, 100, 1000⟩ : InfoRow ℚ), ⟨1, 150, 1000⟩, ⟨1, 120, 1000⟩]
          [(⟨1, 2, 50⟩ : TransRow ℚ), ⟨3, 1, 30⟩] 1 1 = (d.total, some d)
      ∧ d.total = d.liquidez + d.relacionamentos + d.tendencias + d.atividade + d.risco
      ∧ 0 ≤ d.total ∧ d.total ≤ 100 := by
  obtain ⟨⟨d, hd, hsum, -, -, -, -, -, h0, h100⟩, -, -, -, -, -⟩ :=
    calcular_score_santander_spec
      [(⟨1, 100, 1000⟩ : InfoRow ℚ), ⟨1, 150, 1000⟩, ⟨1, 120, 1000⟩]
      [(⟨1, 2, 50⟩ : TransRow ℚ), ⟨3, 1, 30⟩] 1 1 (by simp [dadosCnpj])
  exact ⟨d, hd, hsum, h0, h100⟩

/-! ## C7 -/

/-- C7: `calcular_momento_vida` applies exactly the claimed priority
ladder (`momentoVidaSpec`, first matching rule wins) to
`age_months` = series length, `growth_pct = (last - first)/|first| * 100`
(`0` when `first = 0`) and `cv = std/mean` (`1` when `mean = 0`); and on
the scenario balances `[100000, 110000, 121000]` with revenue `500000`
the growth is `21%` with cv below `0.3`, so the stage is
"Desenvolvimento" (Growing) with score `80`. -/
theorem calcular_momento_vida_spec (df_infos : List (InfoRow ℝ)) (cnpj : Nat)
    (s t : ℝ) (hpres : dadosCnpj df_infos cnpj ≠ []) (ht0 : 0 ≤ t)
    (ht : t ^ 2 = sampleVar [(100000 : ℝ), 110000, 121000]) :
    calcular_momento_vida df_infos cnpj s
      = momentoVidaSpec (dadosCnpj df_infos cnpj).length
          (crescimento_saldo (saldosDe df_infos cnpj))
          (cv_saldo (saldosDe df_infos cnpj) s)
    ∧ calcular_momento_vida
        [(⟨1, 100000, 500000⟩ : InfoRow ℝ), ⟨1, 110000, 500000⟩, ⟨1, 121000, 500000⟩] 1 t
      = ("Desenvolvimento", 80) := by
  have hlen : ¬ (dadosCnpj df_infos cnpj).length = 0 := by
    simpa [List.length_eq_zero] using hpres
  constructor
  · simp only [calcular_momento_vida, momentoVidaSpec, saldosDe, if_neg hlen]
  · have hvar : sampleVar [(100000 : ℝ), 110000, 121000] = 993000000 / 9 := by
      norm_num [sampleVar, listMean]
    rw [hvar] at ht
    have hmean : listMean [(100000 : ℝ), 110000, 121000] = 331000 / 3 := by
      norm_num [listMean]
    have htlt : t / (331000 / 3) < 3 / 10 := by
      rw [div_lt_iff₀ (by norm_num : (0 : ℝ) < 331000 / 3)]
      nlinarith
    have hdados : dadosCnpj
        [(⟨1, 100000, 500000⟩ : InfoRow ℝ), ⟨1, 110000, 500000⟩, ⟨1, 121000, 500000⟩] 1
        = [(⟨1, 100000, 500000⟩ : InfoRow ℝ), ⟨1, 110000, 500000⟩, ⟨1, 121000, 500000⟩] := by
      simp [dadosCnpj]
    simp only [calcular_momento_vida, hdados]
    norm_num [crescimento_saldo, cv_saldo, cvLtB, hmean, htlt]

/-- Witness for C7: instantiated with the scenario data and
`t = √(sampleVar [100000, 110000, 121000])`. -/
theorem calcular_momento_vida_spec_witness :
    (0 : ℝ) ≤ Real.sqrt (sampleVar [(100000 : ℝ), 110000, 121000])
    ∧ Real.sqrt (sampleVar [(100000 : ℝ), 110000, 121000]) ^ 2
        = sampleVar [(100000 : ℝ), 110000, 121000]
    ∧ calcular_momento_vida
        [(⟨1, 100000, 500000⟩ : InfoRow ℝ), ⟨1, 110000, 500000⟩, ⟨1, 121000, 500000⟩] 1
        (Real.sqrt (sampleVar [(100000 : ℝ), 110000, 121000]))
      = ("Desenvolvimento", 80) := by
  have hvar : (0 : ℝ) ≤ sampleVar [(100000 : ℝ), 110000, 121000] := by
    norm_num [sampleVar, listMean]
  have hsq := Real.sq_sqrt hvar
  refine ⟨Real.sqrt_nonneg _, hsq, ?_⟩
  exact (calcular_momento_vida_spec
    [(⟨1, 100000, 500000⟩ : InfoRow ℝ), ⟨1, 110000, 500000⟩, ⟨1, 121000, 500000⟩] 1 0
    (Real.sqrt (sampleVar [(100000 : ℝ), 110000, 121000]))
    (by simp [dadosCnpj]) (Real.sqrt_nonneg _) hsq).2

/-! ## C9 -/

/-- C9: membership in the "ideal for credit" and "high risk" cohorts of
the latest-period snapshot is exactly the stated conjunction of
predicates — AND-only, with the single runway-undefined disjunct in the
high-risk filter (NaN comparisons are `False`, `isna()` is `= none`). -/
theorem empresas_ideais_perigosas_spec (rows : List (AnalisadaRow α))
    (r : AnalisadaRow α) :
    (r ∈ empresas_ideais (ultimo_mes_data rows) ↔
      r ∈ ultimo_mes_data rows
      ∧ r.q25_health ≤ r.score_saude
      ∧ r.score_risco < r.q75_risk
      ∧ nanGeB r.runway_meses 1 = true
      ∧ r.flag_stress_caixa = 0
      ∧ 0 < r.grow_volume
      ∧ (r.estado = "Madura" ∨ r.estado = "Desenvolvimento"))
    ∧ (r ∈ empresas_perigosas (ultimo_mes_data rows) ↔
      r ∈ ultimo_mes_data rows
      ∧ r.score_saude ≤ r.q25_health
      ∧ r.q75_risk ≤ r.score_risco
      ∧ (nanLtB r.runway_meses 3 = true ∨ r.runway_meses = none)
      ∧ r.flag_stress_caixa = 1
      ∧ r.grow_volume < 0
      ∧ (r.estado = "Declínio" ∨ r.estado = "Declínio Persistente")) := by
  constructor <;>
    simp [empresas_ideais, empresas_perigosas, List.mem_filter, Bool.and_eq_true,
      decide_eq_true_eq, Bool.or_eq_true, Option.isNone_iff_eq_none, ge_iff_le,
      and_assoc]
